import Mathlib

/-!
Shallow embedding of the room-reservation system (models, repositories,
validator, service) and proofs of the specification claims.

Timestamps (`datetime`) are embedded as `Int` seconds since an epoch;
`t.time()` is `t.emod 86400` (seconds of day) and `t.date()` is
`t.fdiv 86400` (day index), matching Python's floor-division semantics.
Reservation statuses are the strings "CONFIRMED" / "CANCELLED", exactly as
the code compares them.
-/

namespace RoomRes

/-- Equipment values are heterogeneous in the source
(`Dict[str, any]`: booleans, counts, strings), embedded as a sum. -/
inductive EquipVal where
  | b (val : Bool)
  | n (val : Nat)
  | s (val : String)
  deriving DecidableEq, Repr

/-- The closed set of room variants from `models/room_types.py`, each with
its constructor fields (`Classroom.__init__` etc.). -/
inductive Room where
  | classroom (room_id name : String) (capacity : Nat)
      (has_projector whiteboard : Bool)
  | conference (room_id name : String) (capacity : Nat)
      (video_conference sound_system : Bool)
  | laboratory (room_id name : String) (capacity : Nat)
      (lab_type : String) (safety_equipment : Bool)
  | computerLab (room_id name : String) (capacity : Nat)
      (num_computers : Nat) (has_printer : Bool)
  deriving DecidableEq, Repr

namespace Room

/-- `Room.room_id` property. -/
def room_id : Room → String
  | .classroom i _ _ _ _ => i
  | .conference i _ _ _ _ => i
  | .laboratory i _ _ _ _ => i
  | .computerLab i _ _ _ _ => i

/-- `Room.name` property. -/
def name : Room → String
  | .classroom _ n _ _ _ => n
  | .conference _ n _ _ _ => n
  | .laboratory _ n _ _ _ => n
  | .computerLab _ n _ _ _ => n

/-- `Room.capacity` property. -/
def capacity : Room → Nat
  | .classroom _ _ c _ _ => c
  | .conference _ _ c _ _ => c
  | .laboratory _ _ c _ _ => c
  | .computerLab _ _ c _ _ => c

/-- `get_room_type` of each variant (`room_types.py`). The laboratory
includes its specialization in the tag: `"Laboratory (<lab_type>)"`. -/
def get_room_type : Room → String
  | .classroom _ _ _ _ _ => "Classroom"
  | .conference _ _ _ _ _ => "Conference Room"
  | .laboratory _ _ _ lt _ => "Laboratory (" ++ lt ++ ")"
  | .computerLab _ _ _ _ _ => "Computer Lab"

/-- `get_equipment` of each variant (`room_types.py`). -/
def get_equipment : Room → List (String × EquipVal)
  | .classroom _ _ _ p w =>
      [("projector", .b p), ("whiteboard", .b w), ("desks", .b true)]
  | .conference _ _ _ v s =>
      [("video_conference", .b v), ("sound_system", .b s),
       ("projector", .b true), ("conference_table", .b true)]
  | .laboratory _ _ _ lt safe =>
      [("lab_type", .s lt), ("safety_equipment", .b safe),
       ("workbenches", .b true), ("storage", .b true)]
  | .computerLab _ _ _ nc pr =>
      [("computers", .n nc), ("printer", .b pr), ("network", .b true)]

/-- The variant alone (used to state round-trip preservation of the
room type). -/
inductive Kind where
  | classroom | conference | laboratory | computerLab
  deriving DecidableEq, Repr

/-- Which variant a room is. -/
def kind : Room → Kind
  | .classroom _ _ _ _ _ => .classroom
  | .conference _ _ _ _ _ => .conference
  | .laboratory _ _ _ _ _ => .laboratory
  | .computerLab _ _ _ _ _ => .computerLab

end Room

/-- Python `Classroom(room_id, name, capacity)` with its defaults
`has_projector=True, whiteboard=True` (the call made on deserialization). -/
def classroomNew (room_id name : String) (capacity : Nat) : Room :=
  .classroom room_id name capacity true true

/-- Python `ConferenceRoom(room_id, name, capacity)` with defaults
`video_conference=True, sound_system=True`. -/
def conferenceNew (room_id name : String) (capacity : Nat) : Room :=
  .conference room_id name capacity true true

/-- Python `Laboratory(room_id, name, capacity)` with defaults
`lab_type="General", safety_equipment=True`. -/
def laboratoryNew (room_id name : String) (capacity : Nat) : Room :=
  .laboratory room_id name capacity "General" true

/-- Python `ComputerLab(room_id, name, capacity)` with defaults
`num_computers=0` (which the constructor replaces by `capacity`) and
`has_printer=True`. -/
def computerLabNew (room_id name : String) (capacity : Nat) : Room :=
  .computerLab room_id name capacity capacity true

/-- Modelled from the spec: `models/reservation.py` is absent from the
source tree (only its importers are present). Spec section 4.2 defines the
Reservation entity as a plain record with identifier, room, user name,
start/end times, optional purpose, and a two-valued status starting at
CONFIRMED. -/
structure Reservation where
  reservation_id : String
  room : Room
  user_name : String
  start_time : Int
  end_time : Int
  purpose : String
  status : String
  deriving DecidableEq, Repr

namespace Reservation

/-- Modelled from the spec: `Reservation.overlaps_with(candidate_start,
candidate_end)` implements the half-open overlap rule
`start_A < end_B AND start_B < end_A`, independent of status
(spec section 4.2 and section 8, confirmed by `tests.py`). -/
def overlaps_with (r : Reservation) (s e : Int) : Bool :=
  decide (r.start_time < e) && decide (s < r.end_time)

/-- Modelled from the spec: `Reservation.cancel()` unconditionally sets
the status to CANCELLED and changes nothing else (spec section 4.2). -/
def cancel (r : Reservation) : Reservation :=
  { r with status := "CANCELLED" }

end Reservation

/-- Constructing a reservation (`Reservation.__init__`): status starts as
CONFIRMED. Modelled from the spec (section 4.2), the entity file being
absent from the source tree. -/
def mkReservation (reservation_id : String) (room : Room) (user_name : String)
    (start_time end_time : Int) (purpose : String) : Reservation :=
  { reservation_id, room, user_name, start_time, end_time, purpose,
    status := "CONFIRMED" }

/-- The filter condition of `find_by_room_and_time`, identical in
`in_memory_repository.py` (lines 112-114) and `file_repository.py`
(lines 199-201): same `room_id`, `overlaps_with`, and not CANCELLED. -/
def conflictsWith (room : Room) (s e : Int) (r : Reservation) : Bool :=
  (r.room.room_id == room.room_id) && r.overlaps_with s e &&
    (r.status != "CANCELLED")

/-- In-memory state: the `reservation_id -> Reservation` dict of
`InMemoryRepository`, as an insertion-ordered association list (Python
dicts preserve insertion order; assignment to an existing key keeps its
position). -/
def MemState := List Reservation

/-- Dict assignment `self._reservations[res.reservation_id] = res`:
replace the entry with the same key in place, else append. This is also
exactly the upsert loop of `FileRepository.save` (replace the first
record with a matching id, else append). -/
def dictUpsert (st : List Reservation) (res : Reservation) : List Reservation :=
  match st with
  | [] => [res]
  | x :: xs =>
      if x.reservation_id == res.reservation_id then res :: xs
      else x :: dictUpsert xs res

/-- `InMemoryRepository.save`: dict upsert, always returns True. -/
def memSave (st : List Reservation) (res : Reservation) :
    Bool × List Reservation :=
  (true, dictUpsert st res)

/-- `InMemoryRepository.find_by_id`: `dict.get`, i.e. the entry with the
matching key (keys are unique, so the first match). -/
def memFindById (st : List Reservation) (rid : String) : Option Reservation :=
  st.find? (fun r => r.reservation_id == rid)

/-- `InMemoryRepository.find_by_room_and_time` (lines 103-117). -/
def memFindByRoomAndTime (st : List Reservation) (room : Room) (s e : Int) :
    List Reservation :=
  st.filter (conflictsWith room s e)

/-- `InMemoryRepository.find_all`. -/
def memFindAll (st : List Reservation) : List Reservation := st

/-- `InMemoryRepository.delete` (lines 130-144): if the key is present,
remove it and return True, else return False. -/
def memDelete (st : List Reservation) (rid : String) :
    Bool × List Reservation :=
  if st.any (fun r => r.reservation_id == rid) then
    (true, st.filter (fun r => !(r.reservation_id == rid)))
  else
    (false, st)

/-- `needle` occurs as a contiguous run inside `hay` — Python's
`needle in hay` on strings, used by `_deserialize_room`. -/
def subList (needle : List Char) : List Char → Bool
  | [] => needle.isEmpty
  | h :: tl => needle.isPrefixOf (h :: tl) || subList needle tl

/-- Python string containment `needle in hay`. -/
def strContains (hay needle : String) : Bool :=
  subList needle.data hay.data

/-- The serialized form of a room (`_serialize_room`): the JSON object
with fields `type`, `room_id`, `name`, `capacity`, `equipment`. -/
structure RoomRec where
  type : String
  room_id : String
  name : String
  capacity : Nat
  equipment : List (String × EquipVal)
  deriving DecidableEq, Repr

/-- One serialized reservation record of the JSON file. `start_time` and
`end_time` stand for the ISO-8601 strings; `datetime.isoformat` /
`datetime.fromisoformat` are an exact bijection on instants, so the
instant itself is the faithful embedding of the text. -/
structure ResRec where
  reservation_id : String
  room : RoomRec
  user_name : String
  start_time : Int
  end_time : Int
  purpose : String
  status : String
  deriving DecidableEq, Repr

/-- `FileRepository._serialize_room` (lines 149-157). -/
def serializeRoom (room : Room) : RoomRec :=
  { type := room.get_room_type, room_id := room.room_id,
    name := room.name, capacity := room.capacity,
    equipment := room.get_equipment }

/-- `FileRepository._deserialize_room` (lines 159-169): resolve the type
tag by substring, falling back to `Laboratory`. -/
def deserializeRoom (data : RoomRec) : Room :=
  if strContains data.type "Classroom" then
    classroomNew data.room_id data.name data.capacity
  else if strContains data.type "Conference" then
    conferenceNew data.room_id data.name data.capacity
  else if strContains data.type "Computer" then
    computerLabNew data.room_id data.name data.capacity
  else
    laboratoryNew data.room_id data.name data.capacity

/-- Serialization of one reservation inside `_save_reservations`
(lines 131-141). -/
def serializeReservation (r : Reservation) : ResRec :=
  { reservation_id := r.reservation_id, room := serializeRoom r.room,
    user_name := r.user_name, start_time := r.start_time,
    end_time := r.end_time, purpose := r.purpose, status := r.status }

/-- Deserialization of one record inside `_load_reservations`
(lines 111-122): rebuild the room, construct the reservation (CONFIRMED),
then overwrite `_status` with the stored status. -/
def loadReservation (rec : ResRec) : Reservation :=
  { mkReservation rec.reservation_id (deserializeRoom rec.room)
      rec.user_name rec.start_time rec.end_time rec.purpose with
    status := rec.status }

/-- The backing JSON file: either a parseable list of records, or a file
that cannot be read or parsed (`_load_reservations` catches every
exception from the read and the parse). -/
inductive FileState where
  | good (records : List ResRec)
  | corrupt
  deriving DecidableEq, Repr

/-- `FileRepository._load_reservations` (lines 105-126): decode every
record; on any read/parse failure return the empty list. -/
def loadFile : FileState → List Reservation
  | .good records => records.map loadReservation
  | .corrupt => []

/-- `FileRepository._save_reservations` followed by a successful write:
the file now holds the serialized records. (I/O faults are out of scope
of the claims, which assume the write succeeds.) -/
def writeFile (rs : List Reservation) : Bool × FileState :=
  (true, .good (rs.map serializeReservation))

/-- `FileRepository.save` (lines 171-183): full reload, upsert by id
(replace the first matching record else append — the same loop as the
dict upsert), full rewrite. -/
def fileSave (st : FileState) (res : Reservation) : Bool × FileState :=
  writeFile (dictUpsert (loadFile st) res)

/-- `FileRepository.find_by_id` (lines 185-191): first record with the
matching id. -/
def fileFindById (st : FileState) (rid : String) : Option Reservation :=
  (loadFile st).find? (fun r => r.reservation_id == rid)

/-- `FileRepository.find_by_room_and_time` (lines 193-203): the same
filter as the in-memory repository, over the reloaded list. -/
def fileFindByRoomAndTime (st : FileState) (room : Room) (s e : Int) :
    List Reservation :=
  (loadFile st).filter (conflictsWith room s e)

/-- `FileRepository.find_all` (lines 205-207). -/
def fileFindAll (st : FileState) : List Reservation := loadFile st

/-- `FileRepository.delete` (lines 209-213): reload, drop every record
with the id, rewrite — and return the WRITE result, regardless of
whether the id was present. -/
def fileDelete (st : FileState) (rid : String) : Bool × FileState :=
  writeFile ((loadFile st).filter (fun r => !(r.reservation_id == rid)))

/-- The notifier hook invocations the service makes
(`INotifier.notify_reservation_confirmed` / `..._cancelled`); the service
ignores the hooks' boolean results, so only the calls are observable. -/
inductive NotifyEvent where
  | confirmed (r : Reservation)
  | cancelled (r : Reservation)
  deriving DecidableEq, Repr

/-- The `IReservationRepository` capability as the service consumes it,
over an abstract repository state `σ` (dependency injection: the service
works with any conforming implementation). -/
structure RepoImpl (σ : Type) where
  save : σ → Reservation → Bool × σ
  find_by_id : σ → String → Option Reservation
  find_by_room_and_time : σ → Room → Int → Int → List Reservation

/-- `InMemoryRepository` as a `RepoImpl`. -/
def memRepo : RepoImpl (List Reservation) :=
  { save := memSave, find_by_id := memFindById,
    find_by_room_and_time := memFindByRoomAndTime }

/-- `FileRepository` (fault-free I/O) as a `RepoImpl`. -/
def fileRepo : RepoImpl FileState :=
  { save := fileSave, find_by_id := fileFindById,
    find_by_room_and_time := fileFindByRoomAndTime }

/-- `ReservationService.create_reservation` (lines 36-73). The generated
`RES-`id (uuid-based in the source) enters as the oracle argument `rid`;
the result is the returned value, the repository state after the call,
and the notifier hooks invoked. -/
def createReservation (R : RepoImpl σ) (st : σ) (rid : String) (room : Room)
    (user : String) (s e : Int) (purpose : String) :
    Option Reservation × σ × List NotifyEvent :=
  if ¬ s < e then (none, st, [])
  else if (R.find_by_room_and_time st room s e).length ≠ 0 then (none, st, [])
  else
    let res := mkReservation rid room user s e purpose
    match R.save st res with
    | (true, st2) => (some res, st2, [.confirmed res])
    | (false, st2) => (none, st2, [])

/-- `ReservationService.cancel_reservation` (lines 75-102). -/
def cancelReservation (R : RepoImpl σ) (st : σ) (rid : String) :
    Bool × σ × List NotifyEvent :=
  match R.find_by_id st rid with
  | none => (false, st, [])
  | some res =>
      if res.status == "CANCELLED" then (false, st, [])
      else
        match R.save st res.cancel with
        | (true, st2) => (true, st2, [.cancelled res.cancel])
        | (false, st2) => (false, st2, [])

/-- One service call, as issued by a caller: a create (with the room,
user, times, purpose, and the id the generator happened to produce) or a
cancel of an id. -/
inductive Op where
  | create (rid : String) (room : Room) (user : String) (s e : Int)
      (purpose : String)
  | cancel (rid : String)

/-- Effect of one service call on the in-memory repository state. -/
def stepOp (st : List Reservation) : Op → List Reservation
  | .create rid room user s e purpose =>
      (createReservation memRepo st rid room user s e purpose).2.1
  | .cancel rid => (cancelReservation memRepo st rid).2.1

/-- The repository state after a sequence of service calls starting from
the empty repository. -/
def runOps (ops : List Op) : List Reservation :=
  ops.foldl stepOp []

/-- Two reservations conflict when they are on the same room, neither is
cancelled, and their half-open intervals overlap. -/
def liveConflict (a b : Reservation) : Prop :=
  a.room.room_id = b.room.room_id ∧ a.status ≠ "CANCELLED" ∧
    b.status ≠ "CANCELLED" ∧ a.start_time < b.end_time ∧
    b.start_time < a.end_time

/-- The system-wide invariant: no two stored reservations conflict. -/
def NoConflicts (st : List Reservation) : Prop :=
  st.Pairwise (fun a b => ¬ liveConflict a b)

/-- Seconds-of-day of an instant: Python `t.time()`, comparable because
time-of-day comparison is the comparison of seconds since midnight.
`Int.emod` is nonnegative for a positive modulus, like Python `%`. -/
def timeOfDay (t : Int) : Int := t.emod 86400

/-- Day index of an instant: Python `t.date()`; date subtraction in days
is the difference of day indices. `Int.fdiv` floors, like Python `//`. -/
def dateOf (t : Int) : Int := t.fdiv 86400

/-- Python `str.strip()`: drop whitespace from both ends. -/
def pyStrip (s : String) : String :=
  ⟨((s.data.dropWhile Char.isWhitespace).reverse.dropWhile
      Char.isWhitespace).reverse⟩

/-- Two-digit zero-padded rendering of a number, for `strftime("%H:%M")`. -/
def pad2 (n : Int) : String :=
  if n < 10 then "0" ++ toString n else toString n

/-- `time.strftime("%H:%M")` of a seconds-of-day value. -/
def fmtHM (t : Int) : String :=
  pad2 (t.fdiv 3600) ++ ":" ++ pad2 ((t.emod 3600).fdiv 60)

/-- `ReservationValidator.__init__` configuration; the business window
bounds are seconds-of-day (defaults 07:00 and 22:00). -/
structure ReservationValidator where
  min_duration_hours : Int := 1
  max_duration_hours : Int := 8
  business_start : Int := 25200
  business_end : Int := 79200
  max_advance_days : Int := 90

namespace ReservationValidator

/-- `_validate_time_order`. -/
def validateTimeOrder (s e : Int) : Bool := decide (s < e)

/-- `_validate_duration`: `duration_hours = (end-start)/3600` compared to
the bounds; over the rationals `(e-s)/3600 < m` iff `e-s < 3600*m`, so
the comparisons are exact on the instants. -/
def validateDuration (v : ReservationValidator) (s e : Int) : Option String :=
  if e - s < 3600 * v.min_duration_hours then
    some ("Minimum reservation duration is " ++
      toString v.min_duration_hours ++ " hour(s)")
  else if 3600 * v.max_duration_hours < e - s then
    some ("Maximum reservation duration is " ++
      toString v.max_duration_hours ++ " hours")
  else none

/-- `_validate_business_hours`: compares the start and end
times-of-day against the business window. -/
def validateBusinessHours (v : ReservationValidator) (s e : Int) :
    Option String :=
  if timeOfDay s < v.business_start ∨ v.business_end < timeOfDay e then
    some ("Reservations must be between " ++ fmtHM v.business_start ++
      " and " ++ fmtHM v.business_end)
  else none

/-- `_validate_advance_booking`: `(start.date() - now.date()).days`
against the horizon. -/
def validateAdvanceBooking (v : ReservationValidator) (s now : Int) :
    Option String :=
  if v.max_advance_days < dateOf s - dateOf now then
    some ("Cannot book more than " ++ toString v.max_advance_days ++
      " days in advance")
  else none

/-- `_validate_not_in_past`: `start > datetime.now()`. -/
def validateNotInPast (s now : Int) : Bool := decide (now < s)

/-- `_validate_user_name`: trimmed length at least 2. -/
def validateUserName (user_name : String) : Bool :=
  decide (2 ≤ (pyStrip user_name).length)

/-- `validate_all` (lines 34-72): every rule is evaluated and its message
appended to one list; the small-capacity advisory is appended to the SAME
list; the returned flag is `len(errors) == 0`. `now` is the current
moment (`datetime.now()`), passed explicitly. -/
def validate_all (v : ReservationValidator) (room : Room) (s e : Int)
    (user_name : String) (now : Int) : Bool × List String :=
  let errors :=
    (if validateTimeOrder s e then [] else
      ["End time must be after start time"]) ++
    (v.validateDuration s e).toList ++
    (v.validateBusinessHours s e).toList ++
    (v.validateAdvanceBooking s now).toList ++
    (if validateNotInPast s now then [] else
      ["Cannot book reservations in the past"]) ++
    (if validateUserName user_name then [] else
      ["User name must be at least 2 characters"]) ++
    (if room.capacity < 5 then
      ["⚠️ Warning: Small room capacity (" ++ toString room.capacity ++
        " people)"]
     else [])
  (errors.length == 0, errors)

end ReservationValidator

/-! ## Concrete fixtures for witnesses and counterexamples -/

/-- A standard classroom, as in `tests.py`. -/
def roomCL101 : Room := .classroom "CL-101" "Test Room" 30 true true

/-- A classroom with capacity below the small-room threshold. -/
def roomSmall : Room := .classroom "CL-1" "Small Room" 4 true true

/-- A laboratory whose specialization string contains "Computer". -/
def labComputer : Room := .laboratory "LAB-9" "Weird Lab" 12 "Computer" true

/-- A confirmed two-hour reservation on the classroom. -/
def resA : Reservation := mkReservation "RES-1" roomCL101 "Ann" 0 7200 ""

/-- A reservation on the exotic laboratory. -/
def resLab : Reservation :=
  mkReservation "RES-X" labComputer "Ann" 0 3600 ""

/-- The room's serialized type tag resolves back to the same variant:
automatic for the three keyword variants, and for a laboratory it
requires the tag `"Laboratory (<lab_type>)"` to contain none of the
keywords `_deserialize_room` probes for. -/
def labTagSafe : Room → Prop
  | .laboratory _ _ _ lt _ =>
      strContains ("Laboratory (" ++ lt ++ ")") "Classroom" = false ∧
      strContains ("Laboratory (" ++ lt ++ ")") "Conference" = false ∧
      strContains ("Laboratory (" ++ lt ++ ")") "Computer" = false
  | _ => True

/-! ## Helper lemmas -/

theorem mem_dictUpsert {st : List Reservation} {res a : Reservation}
    (h : a ∈ dictUpsert st res) : a = res ∨ a ∈ st := by
  induction st with
  | nil =>
      simp only [dictUpsert, List.mem_singleton] at h
      exact Or.inl h
  | cons x xs ih =>
      simp only [dictUpsert] at h
      split at h
      · rcases List.mem_cons.mp h with h | h
        · exact Or.inl h
        · exact Or.inr (List.mem_cons_of_mem _ h)
      · rcases List.mem_cons.mp h with h | h
        · exact Or.inr (h ▸ List.mem_cons_self _ _)
        · rcases ih h with h | h
          · exact Or.inl h
          · exact Or.inr (List.mem_cons_of_mem _ h)

theorem pairwise_dictUpsert {R : Reservation → Reservation → Prop}
    {st : List Reservation} {res : Reservation} (hp : st.Pairwise R)
    (hc : ∀ a ∈ st, R a res ∧ R res a) :
    (dictUpsert st res).Pairwise R := by
  induction st with
  | nil => exact List.pairwise_singleton R res
  | cons x xs ih =>
      simp only [dictUpsert]
      split
      · exact List.Pairwise.cons
          (fun b hb => (hc b (List.mem_cons_of_mem _ hb)).2) hp.of_cons
      · refine List.Pairwise.cons (fun b hb => ?_)
          (ih hp.of_cons (fun a ha => hc a (List.mem_cons_of_mem _ ha)))
        rcases mem_dictUpsert hb with rfl | hb
        · exact (hc x (List.mem_cons_self _ _)).1
        · exact List.rel_of_pairwise_cons hp hb

theorem conflictsWith_eq_true {room : Room} {s e : Int} {r : Reservation} :
    conflictsWith room s e r = true ↔
      r.room.room_id = room.room_id ∧ r.start_time < e ∧ s < r.end_time ∧
        r.status ≠ "CANCELLED" := by
  simp [conflictsWith, Reservation.overlaps_with, and_assoc]

theorem memFind_empty_no_conflict {st : List Reservation} {room : Room}
    {s e : Int} (h : memFindByRoomAndTime st room s e = []) :
    ∀ a ∈ st, a.room.room_id = room.room_id → a.status ≠ "CANCELLED" →
      ¬ (a.start_time < e ∧ s < a.end_time) := by
  intro a ha hroom hstat hov
  have := (List.filter_eq_nil_iff.mp h) a ha
  exact this (conflictsWith_eq_true.mpr ⟨hroom, hov.1, hov.2, hstat⟩)

theorem liveConflict_symm {a b : Reservation} (h : liveConflict a b) :
    liveConflict b a :=
  ⟨h.1.symm, h.2.2.1, h.2.1, h.2.2.2.2, h.2.2.2.1⟩

theorem stepOp_preserves {st : List Reservation} (h : NoConflicts st)
    (op : Op) : NoConflicts (stepOp st op) := by
  cases op with
  | create rid room user s e purpose =>
      simp only [stepOp, createReservation]
      split
      · exact h
      · split
        · exact h
        · rename_i hlt hlen
          simp only [memRepo, memSave]
          have hlen0 : (memRepo.find_by_room_and_time st room s e).length = 0 :=
            not_not.mp hlen
          have hnil : memFindByRoomAndTime st room s e = [] := by
            simpa [memRepo] using List.length_eq_zero.mp hlen0
          refine pairwise_dictUpsert h (fun a ha => ?_)
          have hno := memFind_empty_no_conflict hnil a ha
          constructor
          · intro hcf
            exact hno hcf.1 hcf.2.1 ⟨hcf.2.2.2.1, hcf.2.2.2.2⟩
          · intro hcf
            have hcf' := liveConflict_symm hcf
            exact hno hcf'.1 hcf'.2.1 ⟨hcf'.2.2.2.1, hcf'.2.2.2.2⟩
  | cancel rid =>
      simp only [stepOp, cancelReservation]
      cases hfind : memRepo.find_by_id st rid with
      | none => exact h
      | some res =>
          dsimp only
          by_cases hc : res.status == "CANCELLED"
          · rw [if_pos hc]
            exact h
          · rw [if_neg hc]
            simp only [memRepo, memSave]
            refine pairwise_dictUpsert h (fun a ha => ?_)
            constructor
            · intro hcf
              exact hcf.2.2.1 rfl
            · intro hcf
              exact hcf.2.1 rfl

/-! ## Claim theorems -/

/-- C1: every sequence of `create_reservation` / `cancel_reservation`
calls starting from the empty repository leaves a store in which no two
reservations on the same room that are both non-CANCELLED have
overlapping half-open intervals (`start_A < end_B AND start_B < end_A`);
touching intervals never conflict because the comparisons are strict. -/
theorem service_no_overlap_invariant (ops : List Op) :
    NoConflicts (runOps ops) := by
  have key : ∀ (l : List Op) (st : List Reservation), NoConflicts st →
      NoConflicts (l.foldl stepOp st) := by
    intro l
    induction l with
    | nil => intro st h; exact h
    | cons op rest ih => intro st h; exact ih _ (stepOp_preserves h op)
  exact key ops [] List.Pairwise.nil

/-- C2: in both repository implementations, `find_by_room_and_time`
returns exactly the stored reservations with the matching `room_id`,
status other than CANCELLED, and an interval overlapping `[s, e)` under
the half-open rule `reservation.start < e AND s < reservation.end`; in
particular cancelled reservations are never returned and a range that
only touches a stored interval at an endpoint does not select it. -/
theorem find_by_room_and_time_characterization (st : List Reservation)
    (recs : List ResRec) (room : Room) (s e : Int) (r : Reservation) :
    (r ∈ memFindByRoomAndTime st room s e ↔
       r ∈ st ∧ r.room.room_id = room.room_id ∧ r.status ≠ "CANCELLED" ∧
         r.start_time < e ∧ s < r.end_time) ∧
    (r ∈ fileFindByRoomAndTime (.good recs) room s e ↔
       r ∈ loadFile (.good recs) ∧ r.room.room_id = room.room_id ∧
         r.status ≠ "CANCELLED" ∧ r.start_time < e ∧ s < r.end_time) := by
  constructor
  · rw [memFindByRoomAndTime, List.mem_filter]
    simp only [conflictsWith_eq_true]
    tauto
  · rw [fileFindByRoomAndTime, List.mem_filter]
    simp only [conflictsWith_eq_true]
    tauto

/-- C3: `create_reservation` rejects an invalid range and a conflicting
range without touching the repository; otherwise it builds a CONFIRMED
reservation, saves it, and returns it with the confirmed-notification
hook invoked exactly when the save succeeds (absent result and no
notification on save failure). Stated over any injected repository
implementation. -/
theorem create_reservation_spec {σ : Type} (R : RepoImpl σ) (st : σ)
    (rid : String) (room : Room) (user : String) (s e : Int)
    (purpose : String) :
    (¬ s < e →
       createReservation R st rid room user s e purpose = (none, st, [])) ∧
    (s < e → R.find_by_room_and_time st room s e ≠ [] →
       createReservation R st rid room user s e purpose = (none, st, [])) ∧
    ((mkReservation rid room user s e purpose).status = "CONFIRMED") ∧
    (s < e → R.find_by_room_and_time st room s e = [] →
       createReservation R st rid room user s e purpose =
         (if (R.save st (mkReservation rid room user s e purpose)).1 then
            (some (mkReservation rid room user s e purpose),
             (R.save st (mkReservation rid room user s e purpose)).2,
             [.confirmed (mkReservation rid room user s e purpose)])
          else
            (none,
             (R.save st (mkReservation rid room user s e purpose)).2,
             []))) := by
  refine ⟨fun h => ?_, fun hlt hne => ?_, rfl, fun hlt hnil => ?_⟩
  · rw [createReservation, if_pos h]
  · rw [createReservation, if_neg (not_not.mpr hlt), if_pos]
    exact fun hz => hne (List.length_eq_zero.mp hz)
  · rw [createReservation, if_neg (not_not.mpr hlt), if_neg
      (by simp [hnil])]
    rcases hsv : R.save st (mkReservation rid room user s e purpose)
      with ⟨b, st2⟩
    cases b <;> simp [hsv]

/-- C9: `cancel_reservation` fails on a missing id and on an
already-CANCELLED reservation without state change or notification;
otherwise it saves the reservation with status set to CANCELLED and
reports success with the cancelled-notification hook invoked exactly
when the save succeeds. Stated over any injected repository
implementation. -/
theorem cancel_reservation_spec {σ : Type} (R : RepoImpl σ) (st : σ)
    (rid : String) :
    (R.find_by_id st rid = none →
       cancelReservation R st rid = (false, st, [])) ∧
    (∀ res, R.find_by_id st rid = some res → res.status = "CANCELLED" →
       cancelReservation R st rid = (false, st, [])) ∧
    (∀ res, R.find_by_id st rid = some res → res.status ≠ "CANCELLED" →
       res.cancel.status = "CANCELLED" ∧
       cancelReservation R st rid =
         (if (R.save st res.cancel).1 then
            (true, (R.save st res.cancel).2, [.cancelled res.cancel])
          else
            (false, (R.save st res.cancel).2, []))) := by
  refine ⟨fun h => ?_, fun res hf hs => ?_, fun res hf hs => ⟨rfl, ?_⟩⟩
  · rw [cancelReservation, h]
  · rw [cancelReservation, hf]
    simp [hs]
  · rw [cancelReservation, hf]
    simp only [beq_iff_eq, if_neg hs]
    rcases hsv : R.save st res.cancel with ⟨b, st2⟩
    cases b <;> simp [hsv]

/-- C10: with an unreadable or unparseable backing file, every query of
the file repository reports an empty store (empty list / absent) rather
than an error, and a subsequent save rewrites the file so that it holds
only the newly saved reservation. -/
theorem corrupt_file_silently_reset (rid : String) (room : Room)
    (s e : Int) (res : Reservation) :
    fileFindAll .corrupt = [] ∧
    fileFindById .corrupt rid = none ∧
    fileFindByRoomAndTime .corrupt room s e = [] ∧
    fileSave .corrupt res = (true, .good [serializeReservation res]) :=
  ⟨rfl, rfl, rfl, rfl⟩

/-- Witness for C3 at concrete inputs on the in-memory repository: an
inverted range is rejected with nothing persisted, and a conflict-free
create returns the CONFIRMED reservation, stores it, and fires the
confirmed hook. -/
theorem create_reservation_spec_witness :
    createReservation memRepo [] "RES-1" roomCL101 "Ann" 60 0 "" =
      (none, [], []) ∧
    createReservation memRepo [] "RES-1" roomCL101 "Ann" 0 7200 "" =
      (some resA, [resA], [.confirmed resA]) := by
  constructor
  · exact (create_reservation_spec memRepo [] "RES-1" roomCL101 "Ann"
      60 0 "").1 (by decide)
  · have h := (create_reservation_spec memRepo [] "RES-1" roomCL101 "Ann"
      0 7200 "").2.2.2 (by decide) rfl
    simpa [resA] using h

/-- Witness for C9 at concrete inputs on the in-memory repository: a
missing id fails, an already-cancelled reservation fails without a
notification, and a confirmed reservation is cancelled, stored, and the
cancelled hook fired. -/
theorem cancel_reservation_spec_witness :
    cancelReservation memRepo [resA] "RES-404" = (false, [resA], []) ∧
    cancelReservation memRepo [resA.cancel] "RES-1" =
      (false, [resA.cancel], []) ∧
    cancelReservation memRepo [resA] "RES-1" =
      (true, [resA.cancel], [.cancelled resA.cancel]) := by
  refine ⟨?_, ?_, ?_⟩
  · exact (cancel_reservation_spec memRepo [resA] "RES-404").1 rfl
  · exact (cancel_reservation_spec memRepo [resA.cancel] "RES-1").2.1
      resA.cancel rfl rfl
  · have h := ((cancel_reservation_spec memRepo [resA] "RES-1").2.2
      resA rfl (by decide)).2
    simpa using h

/-- C4: the two repository implementations are NOT observationally
equivalent: starting both from the empty store, the one-call sequence
`delete "RES-1"` already returns different results (the file-backed
repository reports the rewrite result, the in-memory one reports whether
the id was present). -/
theorem repositories_diverge_on_delete :
    (fileDelete (.good []) "RES-1").1 ≠ (memDelete [] "RES-1").1 := by
  decide

/-- C5: `delete` on an absent identifier returns false in the in-memory
repository but true in the file repository (which returns the result of
rewriting the file instead of checking presence). -/
theorem delete_absent_identifier_results :
    memDelete [resA] "RES-404" = (false, [resA]) ∧
    fileDelete (.good [serializeReservation resA]) "RES-404" =
      (true, .good [serializeReservation resA]) := by
  exact ⟨by decide, by decide⟩

/-- Counterexample to C6 as stated: a reservation on a laboratory with
specialization "Computer" serializes to the type tag
"Laboratory (Computer)", which `_deserialize_room` resolves by substring
to a ComputerLab — the reloaded reservation does not have the same room
type. -/
theorem file_roundtrip_counterexample :
    ((loadReservation (serializeReservation resLab)).room).kind ≠
      resLab.room.kind := by
  decide

theorem deserializeRoom_room_id (d : RoomRec) :
    (deserializeRoom d).room_id = d.room_id := by
  rw [deserializeRoom]
  split_ifs <;> rfl

theorem deserializeRoom_capacity (d : RoomRec) :
    (deserializeRoom d).capacity = d.capacity := by
  rw [deserializeRoom]
  split_ifs <;> rfl

/-- C6 (amended): reloading a saved reservation reproduces identifier,
user name, start and end timestamps, purpose, status, and the room's id
and capacity, unconditionally (every branch of `_deserialize_room`
passes the serialized id and capacity through); the room VARIANT is also
reproduced provided that, for a laboratory, the serialized tag
`"Laboratory (<lab_type>)"` contains none of the substrings "Classroom",
"Conference", "Computer" that `_deserialize_room` probes in that order
(the resolution is by substring with Laboratory as the fallback variant,
so such a tag falls through to the Laboratory case). -/
theorem file_roundtrip (res : Reservation) :
    (loadReservation (serializeReservation res)).reservation_id =
      res.reservation_id ∧
    ((loadReservation (serializeReservation res)).room).room_id =
      res.room.room_id ∧
    ((loadReservation (serializeReservation res)).room).capacity =
      res.room.capacity ∧
    (loadReservation (serializeReservation res)).user_name =
      res.user_name ∧
    (loadReservation (serializeReservation res)).start_time =
      res.start_time ∧
    (loadReservation (serializeReservation res)).end_time =
      res.end_time ∧
    (loadReservation (serializeReservation res)).purpose = res.purpose ∧
    (loadReservation (serializeReservation res)).status = res.status ∧
    (labTagSafe res.room →
      ((loadReservation (serializeReservation res)).room).kind =
        res.room.kind) := by
  obtain ⟨rid, room, user, ts, te, pur, stat⟩ := res
  refine ⟨rfl, deserializeRoom_room_id _, deserializeRoom_capacity _,
    rfl, rfl, rfl, rfl, rfl, ?_⟩
  intro h
  cases room with
  | classroom i n c p w => rfl
  | conference i n c v so => rfl
  | computerLab i n c nc pr => rfl
  | laboratory i n c lt safe =>
      obtain ⟨h1, h2, h3⟩ := h
      have hroom : deserializeRoom (serializeRoom
          (Room.laboratory i n c lt safe)) = laboratoryNew i n c := by
        rw [deserializeRoom]
        simp only [serializeRoom, Room.get_room_type] at h1 h2 h3 ⊢
        rw [if_neg (by simp [h1]), if_neg (by simp [h2]),
          if_neg (by simp [h3])]
        rfl
      show (deserializeRoom (serializeRoom
          (Room.laboratory i n c lt safe))).kind =
        (Room.laboratory i n c lt safe).kind
      rw [hroom]
      rfl

/-- Witness for C6 (amended) at a concrete classroom reservation,
discharging the laboratory-tag side condition there. -/
theorem file_roundtrip_witness :
    (loadReservation (serializeReservation resA)).status = resA.status ∧
    ((loadReservation (serializeReservation resA)).room).kind =
      resA.room.kind := by
  have h := file_roundtrip resA
  exact ⟨h.2.2.2.2.2.2.2.1, h.2.2.2.2.2.2.2.2 trivial⟩

/-- C7: `validate_all` evaluates every rule on every input and returns
the complete list of violation messages: each violated rule's message
appears in the returned list regardless of the other rules (no
short-circuiting), and the list's length is exactly the number of
violated rules plus the small-capacity advisory — nothing is dropped and
nothing else is added. In particular an input violating time order,
duration, and business hours at once yields at least 3 messages. -/
theorem validate_all_aggregates (v : ReservationValidator) (room : Room)
    (s e : Int) (user_name : String) (now : Int) :
    (¬ s < e → "End time must be after start time" ∈
      (v.validate_all room s e user_name now).2) ∧
    (∀ m, v.validateDuration s e = some m →
      m ∈ (v.validate_all room s e user_name now).2) ∧
    (∀ m, v.validateBusinessHours s e = some m →
      m ∈ (v.validate_all room s e user_name now).2) ∧
    (∀ m, v.validateAdvanceBooking s now = some m →
      m ∈ (v.validate_all room s e user_name now).2) ∧
    (¬ now < s → "Cannot book reservations in the past" ∈
      (v.validate_all room s e user_name now).2) ∧
    (¬ 2 ≤ (pyStrip user_name).length →
      "User name must be at least 2 characters" ∈
        (v.validate_all room s e user_name now).2) ∧
    ((v.validate_all room s e user_name now).2.length =
      (if s < e then 0 else 1) +
      (v.validateDuration s e).toList.length +
      (v.validateBusinessHours s e).toList.length +
      (v.validateAdvanceBooking s now).toList.length +
      (if now < s then 0 else 1) +
      (if 2 ≤ (pyStrip user_name).length then 0 else 1) +
      (if room.capacity < 5 then 1 else 0)) ∧
    (¬ s < e → v.validateDuration s e ≠ none →
      v.validateBusinessHours s e ≠ none →
      3 ≤ (v.validate_all room s e user_name now).2.length) := by
  have hlen : (v.validate_all room s e user_name now).2.length =
      (if s < e then 0 else 1) +
      (v.validateDuration s e).toList.length +
      (v.validateBusinessHours s e).toList.length +
      (v.validateAdvanceBooking s now).toList.length +
      (if now < s then 0 else 1) +
      (if 2 ≤ (pyStrip user_name).length then 0 else 1) +
      (if room.capacity < 5 then 1 else 0) := by
    simp only [ReservationValidator.validate_all,
      ReservationValidator.validateTimeOrder,
      ReservationValidator.validateNotInPast,
      ReservationValidator.validateUserName,
      List.length_append, apply_ite List.length, List.length_nil,
      List.length_singleton, decide_eq_true_eq]
  refine ⟨fun h1 => ?_, fun m hm => ?_, fun m hm => ?_, fun m hm => ?_,
    fun h5 => ?_, fun h6 => ?_, hlen, fun h1 h2 h3 => ?_⟩
  · simp [ReservationValidator.validate_all,
      ReservationValidator.validateTimeOrder, h1]
  · simp [ReservationValidator.validate_all, hm]
  · simp [ReservationValidator.validate_all, hm]
  · simp [ReservationValidator.validate_all, hm]
  · simp [ReservationValidator.validate_all,
      ReservationValidator.validateNotInPast, h5]
  · simp [ReservationValidator.validate_all,
      ReservationValidator.validateUserName, h6]
  · rcases hd : v.validateDuration s e with _ | m2
    · exact absurd hd h2
    rcases hb : v.validateBusinessHours s e with _ | m3
    · exact absurd hb h3
    rw [hd, hb, if_neg h1] at hlen
    simp only [Option.toList_some, List.length_singleton] at hlen
    omega

/-- Witness for C7 at a concrete input violating time order, minimum
duration, and business hours at once: the time-order message is present
and the list has at least 3 entries. -/
theorem validate_all_aggregates_witness :
    "End time must be after start time" ∈
      (ReservationValidator.validate_all {} roomCL101 108000 104400
        "John Doe" 0).2 ∧
    3 ≤ (ReservationValidator.validate_all {} roomCL101 108000 104400
      "John Doe" 0).2.length := by
  have h := validate_all_aggregates {} roomCL101 108000 104400
    "John Doe" 0
  exact ⟨h.1 (by decide),
    h.2.2.2.2.2.2.2 (by decide) (by decide) (by decide)⟩

/-- C8 fails on the code: a request satisfying every rule on a
capacity-4 room yields `is_valid = False`, because `validate_all`
appends the small-capacity advisory to the same `errors` list whose
emptiness defines validity — the advisory blocks validity. -/
theorem small_capacity_blocks_validity :
    ReservationValidator.validate_all {} roomSmall 118800 126000
      "John Doe" 0 =
      (false, ["⚠️ Warning: Small room capacity (4 people)"]) := by
  decide

end RoomRes
